import Mathlib

/-!
Shallow embedding of the account-registration core of the `mzendbacked`
repository (Rust), covering the credential validation, password hashing,
duplicate-safe account creation and authentication pipeline.

Conventions of the embedding:
* `Uuid` values and `DateTime<Utc>` timestamps are modelled as `Nat`
  (opaque identifiers / opaque instants; only equality matters here).
* Rust `HashMap` fields are modelled as association lists with
  replace-on-insert semantics (`insertKV` / `lookupKV`).
* `Mutex` locks are modelled as always succeeding (single-threaded model);
  the `InternalError` lock-poisoning branches of the source are therefore
  unreachable in the embedding.
* Fallible Rust functions returning `Result<T, AppError>` become
  `Except AppError T`.
-/

namespace Mzend

/-- Error taxonomy, from `src/errors.rs` (`enum AppError`). -/
inductive AppError where
  | ValidationError (msg : String)
  | DatabaseError (msg : String)
  | AuthenticationError (msg : String)
  | StellarError (msg : String)
  | InternalError (msg : String)
deriving DecidableEq, Repr

/-- The password hash as stored. Modelled from the spec: the real
`PasswordManager` lives in `src/utils/crypto.rs`, which is not among the
provided sources. Spec section 4.2 describes the hash as a self-describing
digest embedding its salt and parameters; we model it as an explicit
salt/tag pair instead of the opaque digest string. -/
structure StoredHash where
  salt : Nat
  tag : Nat
deriving DecidableEq, Repr

/-- The persisted account entity, from `src/models/user.rs` (`struct User`). -/
structure User where
  id : Nat
  email : String
  username : String
  password_hash : StoredHash
  is_verified : Bool
  stellar_public_key : Option String
  created_at : Nat
  updated_at : Nat
deriving DecidableEq, Repr

/-- Creation input, from `src/models/user.rs` (`struct CreateUserRequest`). -/
structure CreateUserRequest where
  email : String
  username : String
  password : String
deriving DecidableEq, Repr

/-- The public projection returned to callers, from `src/models/user.rs`
(`struct UserResponse`): it has no `password_hash` field and no
`updated_at` field. -/
structure UserResponse where
  id : Nat
  email : String
  username : String
  is_verified : Bool
  stellar_public_key : Option String
  created_at : Nat
deriving DecidableEq, Repr

/-- `impl From<User> for UserResponse`, from `src/models/user.rs`. -/
def User.toResponse (u : User) : UserResponse :=
  { id := u.id
    email := u.email
    username := u.username
    is_verified := u.is_verified
    stellar_public_key := u.stellar_public_key
    created_at := u.created_at }

/-! ### Association-list model of `HashMap` -/

/-- Lookup in an association list; model of `HashMap::get` /
`HashMap::contains_key`. -/
def lookupKV {K V : Type} [DecidableEq K] : List (K × V) → K → Option V
  | [], _ => none
  | (k', v) :: rest, k => if k = k' then some v else lookupKV rest k

/-- Insert with replace-on-collision semantics; model of `HashMap::insert`:
an existing binding of the key is overwritten in place, a new key is
added. -/
def insertKV {K V : Type} [DecidableEq K] (m : List (K × V)) (k : K)
    (v : V) : List (K × V) :=
  match lookupKV m k with
  | some _ => m.map (fun p => if p.1 = k then (k, v) else p)
  | none => (k, v) :: m

/-! ### Validator (spec-modelled)

The `Validator` lives in `src/utils/validation.rs`, which is not among the
provided sources; the definitions below are modelled from spec section 4.1.
Character classes are ASCII, matching the requirements the in-repo CLI
(`src/cli/mod.rs`, `display_password_requirements`) prints to the user. -/

def isUpperChar (c : Char) : Bool := 65 ≤ c.toNat && c.toNat ≤ 90

def isLowerChar (c : Char) : Bool := 97 ≤ c.toNat && c.toNat ≤ 122

def isDigitChar (c : Char) : Bool := 48 ≤ c.toNat && c.toNat ≤ 57

def isUsernameChar (c : Char) : Bool :=
  isUpperChar c || isLowerChar c || isDigitChar c || c = '_'

/-- The special-character set the CLI documents to the user
(`src/cli/mod.rs`, `display_password_requirements`). -/
def specialChars : List Char := "!@#$%^&*()_+-=[]\x7B\x7D|;:,.<>?".toList

/-- Split a character list at the first occurrence of `c`; `none` when `c`
does not occur. -/
def splitAtFirst (c : Char) : List Char → Option (List Char × List Char)
  | [] => none
  | x :: xs =>
    if x = c then some ([], xs)
    else (splitAtFirst c xs).map (fun p => (x :: p.1, p.2))

/-- Modelled from the spec: `Validator::validate_email`
(`src/utils/validation.rs`, not among the provided sources). Spec section
4.1: fails if empty or not of `local@domain` shape — at least one `@`,
non-empty local and domain parts, domain containing a `.` (the split is at
the first `@`). -/
def validate_email (s : String) : Except AppError Unit :=
  match splitAtFirst '@' s.toList with
  | none => .error (.ValidationError "Invalid email format")
  | some (loc, domain) =>
    if loc.isEmpty then .error (.ValidationError "Invalid email format")
    else if domain.isEmpty then .error (.ValidationError "Invalid email format")
    else if domain.any (fun c => c = '.') then .ok ()
    else .error (.ValidationError "Invalid email format")

/-- Modelled from the spec: `Validator::validate_username`
(`src/utils/validation.rs`, not among the provided sources). Spec section
4.1: fails if empty, shorter than 3 or longer than 32, or containing
characters outside `[A-Za-z0-9_]`. -/
def validate_username (s : String) : Except AppError Unit :=
  if s.toList.length < 3 then
    .error (.ValidationError "Username must be at least 3 characters")
  else if 32 < s.toList.length then
    .error (.ValidationError "Username must be at most 32 characters")
  else if s.toList.all isUsernameChar then .ok ()
  else .error (.ValidationError "Username contains invalid characters")

/-- Modelled from the spec: `Validator::validate_password`
(`src/utils/validation.rs`, not among the provided sources). Spec section
4.1: fails unless all of: length at least 8, at least one uppercase letter,
at least one lowercase letter, at least one digit, at least one character
from the special-character set. -/
def validate_password (s : String) : Except AppError Unit :=
  if s.toList.length < 8 then
    .error (.ValidationError "Password must be at least 8 characters")
  else if !(s.toList.any isUpperChar) then
    .error (.ValidationError "Password must contain an uppercase letter")
  else if !(s.toList.any isLowerChar) then
    .error (.ValidationError "Password must contain a lowercase letter")
  else if !(s.toList.any isDigitChar) then
    .error (.ValidationError "Password must contain a digit")
  else if !(s.toList.any (fun c => specialChars.contains c)) then
    .error (.ValidationError "Password must contain a special character")
  else .ok ()

/-! ### PasswordManager (spec-modelled) -/

/-- Modelled from the spec: the keyed digest inside
`PasswordManager::hash_password` (`src/utils/crypto.rs`, not among the
provided sources). Spec section 4.2 requires a deterministic salted one-way
function; the cryptographic strength is irrelevant to the stated
properties, so a deterministic polynomial rolling digest stands in for it. -/
def digest (salt : Nat) (p : String) : Nat :=
  p.toList.foldl (fun a c => (a * 131 + c.toNat + 1) % 1000000007)
    (salt % 1000000007)

/-- Modelled from the spec: `PasswordManager::hash_password`. Produces a
self-describing hash embedding the salt used. -/
def hash_password (salt : Nat) (p : String) : StoredHash :=
  { salt := salt, tag := digest salt p }

/-- Modelled from the spec: `PasswordManager::verify_password`. Recomputes
the digest using the salt embedded in the stored hash and compares. -/
def verify_password (p : String) (h : StoredHash) : Bool :=
  digest h.salt p = h.tag

/-! ### In-memory UserService, from `src/services/user_service.rs` -/

/-- The service state: the three `HashMap`s guarded by mutexes in
`struct UserService` (`src/services/user_service.rs`). -/
structure UserService where
  users : List (Nat × User)
  email_index : List (String × Nat)
  username_index : List (String × Nat)
deriving DecidableEq, Repr

/-- The empty service, `UserService::new`. -/
def UserService.empty : UserService :=
  { users := [], email_index := [], username_index := [] }

/-- The duplicate-email error produced by the store layer
(`src/services/user_service.rs` line 37 and `src/database/sqlite.rs`
line 87). -/
def duplicateEmailError : AppError := .ValidationError "Email already exists"

/-- The duplicate-username error produced by the store layer
(`src/services/user_service.rs` line 47 and `src/database/sqlite.rs`
line 89). -/
def duplicateUsernameError : AppError := .ValidationError "Username already exists"

/-- `UserService::create_user` (`src/services/user_service.rs`).
Validate email, username, password; check the email index, then the
username index; hash; build the `User` with fresh id, `now` timestamps,
`is_verified = false`, `stellar_public_key = None`; insert into all three
maps; return the public response. The effects the Rust method obtains
ambiently are parameters: `hashFn` for `PasswordManager::hash_password`,
`newId` for `Uuid::new_v4()`, `now` for `Utc::now()`. Returns the result
together with the post-state. -/
def create_user (hashFn : String → StoredHash) (newId now : Nat)
    (request : CreateUserRequest) (s : UserService) :
    Except AppError UserResponse × UserService :=
  match validate_email request.email with
  | .error e => (.error e, s)
  | .ok () =>
  match validate_username request.username with
  | .error e => (.error e, s)
  | .ok () =>
  match validate_password request.password with
  | .error e => (.error e, s)
  | .ok () =>
  if (lookupKV s.email_index request.email).isSome then
    (.error duplicateEmailError, s)
  else if (lookupKV s.username_index request.username).isSome then
    (.error duplicateUsernameError, s)
  else
    let password_hash := hashFn request.password
    let user : User :=
      { id := newId
        email := request.email
        username := request.username
        password_hash := password_hash
        is_verified := false
        stellar_public_key := none
        created_at := now
        updated_at := now }
    (.ok user.toResponse,
      { users := insertKV s.users newId user
        email_index := insertKV s.email_index request.email newId
        username_index := insertKV s.username_index request.username newId })

/-- `UserService::get_user_by_id` (`src/services/user_service.rs`): a pure
read; the state is returned unchanged alongside the result. -/
def get_user_by_id (s : UserService) (user_id : Nat) :
    Except AppError (Option UserResponse) × UserService :=
  (.ok ((lookupKV s.users user_id).map User.toResponse), s)

/-- `UserService::get_user_by_email` (`src/services/user_service.rs`):
consults the email index, then delegates to `get_user_by_id`. -/
def get_user_by_email (s : UserService) (email : String) :
    Except AppError (Option UserResponse) × UserService :=
  match lookupKV s.email_index email with
  | some user_id => get_user_by_id s user_id
  | none => (.ok none, s)

/-! ### SQLite-backed store, from `src/database/sqlite.rs` -/

/-- The `users` table (`src/database/sqlite.rs`, `create_tables`): rows in
insertion order, with unique constraints on `id` (primary key), `email`
and `username`. -/
structure SqliteDb where
  rows : List User
deriving DecidableEq, Repr

/-- A freshly created database (empty `users` table). -/
def SqliteDb.empty : SqliteDb := { rows := [] }

/-- `SqliteDatabase::create_user` (`src/database/sqlite.rs`): an INSERT
whose unique-constraint rejections the source maps to the typed duplicate
errors by sniffing the engine's error text. The engine-side enforcement
of the unique indexes is modelled from the spec (section 6: a unique index
on `email` and on `username`, plus the `id` primary key). -/
def db_create_user (db : SqliteDb) (user : User) :
    Except AppError Unit × SqliteDb :=
  if db.rows.any (fun r => r.email == user.email) then
    (.error duplicateEmailError, db)
  else if db.rows.any (fun r => r.username == user.username) then
    (.error duplicateUsernameError, db)
  else if db.rows.any (fun r => r.id == user.id) then
    (.error (.ValidationError "User already exists"), db)
  else
    (.ok (), { rows := db.rows ++ [user] })

/-- `SqliteDatabase::get_user_by_email` (`src/database/sqlite.rs`):
`SELECT * FROM users WHERE email = ?1` with an optional row. -/
def db_get_user_by_email (db : SqliteDb) (email : String) :
    Except AppError (Option User) :=
  .ok (db.rows.find? (fun r => r.email == email))

/-- `SqliteDatabase::get_user_by_username` (`src/database/sqlite.rs`):
`SELECT * FROM users WHERE username = ?1` with an optional row. -/
def db_get_user_by_username (db : SqliteDb) (username : String) :
    Except AppError (Option User) :=
  .ok (db.rows.find? (fun r => r.username == username))

/-- `SqliteDatabase::get_user_count` (`src/database/sqlite.rs`):
`SELECT COUNT(*) FROM users`. The source returns an `i64`; the count of a
table is non-negative, so it is modelled as `Nat`. -/
def get_user_count (db : SqliteDb) : Except AppError Nat :=
  .ok db.rows.length

/-- The generic authentication failure. Modelled from the spec (section
4.4): one non-revealing message for every failure cause. -/
def invalidCredentialsError : AppError :=
  .AuthenticationError "Invalid email/username or password"

/-- Modelled from the spec: `UserService::authenticate_user`, the
store-backed service method called by `AccountHandler::login_interactive`
(`src/handlers/account_handler.rs` line 160), is not among the provided
sources. Spec section 4.4: treat the identifier as an email first, then —
only if not found — as a username; no account found and failed password
verification both yield the same generic `AuthenticationError`. -/
def authenticate_user (db : SqliteDb) (identifier password : String) :
    Except AppError UserResponse :=
  let account :=
    match db.rows.find? (fun r => r.email == identifier) with
    | some u => some u
    | none => db.rows.find? (fun r => r.username == identifier)
  match account with
  | none => .error invalidCredentialsError
  | some user =>
    if verify_password password user.password_hash then .ok user.toResponse
    else .error invalidCredentialsError

/-! ### Operation sequences over the store -/

/-- Whether a fallible operation succeeded. -/
def exceptIsOk {ε α : Type} : Except ε α → Bool
  | .ok _ => true
  | .error _ => false

/-- A store operation: a creation attempt or one of the read-only
queries of `SqliteDatabase`. -/
inductive DbOp where
  | create (user : User)
  | byEmail (email : String)
  | byUsername (username : String)
  | count
deriving DecidableEq, Repr

/-- Run a sequence of store operations; returns the final database and the
number of `create` operations that succeeded. The read operations do not
modify the database. -/
def runOps : SqliteDb → List DbOp → SqliteDb × Nat
  | db, [] => (db, 0)
  | db, DbOp.create u :: rest =>
    let r := db_create_user db u
    let t := runOps r.2 rest
    (t.1, (if exceptIsOk r.1 then 1 else 0) + t.2)
  | db, DbOp.byEmail _ :: rest => runOps db rest
  | db, DbOp.byUsername _ :: rest => runOps db rest
  | db, DbOp.count :: rest => runOps db rest

/-! ### Index-consistency invariant of the in-memory service -/

/-- Index consistency for the in-memory `UserService` state: every entry
of `email_index` points at a stored user carrying exactly that email,
every entry of `username_index` points at a stored user carrying exactly
that username, and the three maps have equal size. -/
def IndexConsistent (s : UserService) : Prop :=
  (∀ p ∈ s.email_index, (lookupKV s.users p.2).map User.email = some p.1) ∧
  (∀ p ∈ s.username_index,
    (lookupKV s.users p.2).map User.username = some p.1) ∧
  s.email_index.length = s.users.length ∧
  s.username_index.length = s.users.length

/-! ### Concrete demonstration data -/

/-- A concrete stored account used by the witnesses. -/
def demoUser : User :=
  { id := 1
    email := "a@b.c"
    username := "alice"
    password_hash := hash_password 7 "Abcdef1!"
    is_verified := false
    stellar_public_key := none
    created_at := 100
    updated_at := 100 }

/-- A second concrete account with distinct id, email and username. -/
def demoUser2 : User :=
  { id := 2
    email := "b@c.d"
    username := "bob_1"
    password_hash := hash_password 9 "Ghijkl2$"
    is_verified := false
    stellar_public_key := none
    created_at := 150
    updated_at := 150 }

/-- `demoUser` with a different password hash and all other fields equal. -/
def demoUserAltHash : User :=
  { demoUser with password_hash := hash_password 8 "Other2@x" }

/-- An in-memory service state holding exactly `demoUser`. -/
def demoService : UserService :=
  { users := [(1, demoUser)]
    email_index := [("a@b.c", 1)]
    username_index := [("alice", 1)] }

/-- A database holding exactly `demoUser`. -/
def demoDb : SqliteDb := { rows := [demoUser] }

/-- An operation sequence with two successful creations, one rejected
duplicate and a count query. -/
def demoOps : List DbOp :=
  [DbOp.create demoUser, DbOp.create demoUser2,
   DbOp.create demoUserAltHash, DbOp.count]

/-- Equality of fallible results is decidable (used by the concrete
witnesses). -/
instance exceptDecidableEq {ε α : Type} [DecidableEq ε] [DecidableEq α] :
    DecidableEq (Except ε α) := fun a b =>
  match a, b with
  | .error x, .error y =>
    if h : x = y then isTrue (by rw [h])
    else isFalse (by intro hh; injection hh; exact h ‹_›)
  | .error _, .ok _ => isFalse (fun hh => Except.noConfusion hh)
  | .ok _, .error _ => isFalse (fun hh => Except.noConfusion hh)
  | .ok x, .ok y =>
    if h : x = y then isTrue (by rw [h])
    else isFalse (by intro hh; injection hh; exact h ‹_›)

/-! ### Helper lemmas about the association-list operations -/

theorem lookupKV_cons {K V : Type} [DecidableEq K] (k' : K) (v : V)
    (m : List (K × V)) (k : K) :
    lookupKV ((k', v) :: m) k = if k = k' then some v else lookupKV m k := rfl

theorem insertKV_of_lookup_none {K V : Type} [DecidableEq K]
    {m : List (K × V)} {k : K} (v : V) (h : lookupKV m k = none) :
    insertKV m k v = (k, v) :: m := by
  simp [insertKV, h]

/-- The constructed account inside the success branch of
`UserService::create_user`. -/
def newUser (f : String → StoredHash) (newId now : Nat)
    (req : CreateUserRequest) : User :=
  { id := newId
    email := req.email
    username := req.username
    password_hash := f req.password
    is_verified := false
    stellar_public_key := none
    created_at := now
    updated_at := now }

/-- Exhaustive case analysis of `create_user`: exactly one of the six
control-flow outcomes of the source occurs, in source order. -/
theorem create_user_cases (f : String → StoredHash) (newId now : Nat)
    (req : CreateUserRequest) (s : UserService) :
    (∃ e, validate_email req.email = .error e ∧
      create_user f newId now req s = (.error e, s)) ∨
    (validate_email req.email = .ok () ∧
      ∃ e, validate_username req.username = .error e ∧
        create_user f newId now req s = (.error e, s)) ∨
    (validate_email req.email = .ok () ∧
      validate_username req.username = .ok () ∧
      ∃ e, validate_password req.password = .error e ∧
        create_user f newId now req s = (.error e, s)) ∨
    (validate_email req.email = .ok () ∧
      validate_username req.username = .ok () ∧
      validate_password req.password = .ok () ∧
      (lookupKV s.email_index req.email).isSome = true ∧
      create_user f newId now req s = (.error duplicateEmailError, s)) ∨
    (validate_email req.email = .ok () ∧
      validate_username req.username = .ok () ∧
      validate_password req.password = .ok () ∧
      lookupKV s.email_index req.email = none ∧
      (lookupKV s.username_index req.username).isSome = true ∧
      create_user f newId now req s = (.error duplicateUsernameError, s)) ∨
    (validate_email req.email = .ok () ∧
      validate_username req.username = .ok () ∧
      validate_password req.password = .ok () ∧
      lookupKV s.email_index req.email = none ∧
      lookupKV s.username_index req.username = none ∧
      create_user f newId now req s =
        (.ok (newUser f newId now req).toResponse,
         { users := insertKV s.users newId (newUser f newId now req)
           email_index := insertKV s.email_index req.email newId
           username_index := insertKV s.username_index req.username newId })) := by
  rcases hve : validate_email req.email with e | u
  · exact Or.inl ⟨e, rfl, by simp [create_user, hve]⟩
  cases u
  rcases hvu : validate_username req.username with e | u
  · exact Or.inr (Or.inl ⟨rfl, e, rfl, by simp [create_user, hve, hvu]⟩)
  cases u
  rcases hvp : validate_password req.password with e | u
  · exact Or.inr (Or.inr (Or.inl
      ⟨rfl, rfl, e, rfl, by simp [create_user, hve, hvu, hvp]⟩))
  cases u
  by_cases he : (lookupKV s.email_index req.email).isSome = true
  · exact Or.inr (Or.inr (Or.inr (Or.inl
      ⟨rfl, rfl, rfl, he, by simp [create_user, hve, hvu, hvp, he]⟩)))
  have he' : lookupKV s.email_index req.email = none := by
    cases hE : lookupKV s.email_index req.email <;> simp_all
  by_cases hu : (lookupKV s.username_index req.username).isSome = true
  · exact Or.inr (Or.inr (Or.inr (Or.inr (Or.inl
      ⟨rfl, rfl, rfl, he', hu,
        by simp [create_user, hve, hvu, hvp, he, hu]⟩))))
  have hu' : lookupKV s.username_index req.username = none := by
    cases hU : lookupKV s.username_index req.username <;> simp_all
  exact Or.inr (Or.inr (Or.inr (Or.inr (Or.inr
    ⟨rfl, rfl, rfl, he', hu',
      by simp [create_user, newUser, hve, hvu, hvp, he, hu]⟩))))

/-! ### Claim theorems -/

/-- C3: for every password `p` and every salt, verifying `p` against the
hash that `PasswordManager` produced for `p` succeeds. -/
theorem verify_of_hash_succeeds (salt : Nat) (p : String) :
    verify_password p (hash_password salt p) = true := by
  simp [verify_password, hash_password]

/-- C9: `validate_password` accepts a password exactly when all five
strength rules hold (length at least 8, an uppercase letter, a lowercase
letter, a digit, a special character); `"abc"` is rejected and
`"Abcdef1!"` is accepted. -/
theorem validate_password_rules :
    (∀ s : String, validate_password s = .ok () ↔
      (8 ≤ s.toList.length ∧
       s.toList.any isUpperChar = true ∧
       s.toList.any isLowerChar = true ∧
       s.toList.any isDigitChar = true ∧
       s.toList.any (fun c => specialChars.contains c) = true)) ∧
    validate_password "abc"
      = .error (.ValidationError "Password must be at least 8 characters") ∧
    validate_password "Abcdef1!" = .ok () := by
  refine ⟨fun s => ?_, rfl, rfl⟩
  unfold validate_password
  split_ifs with h1 h2 h3 h4 h5
  · refine iff_of_false (by simp) ?_
    rintro ⟨hlen, -⟩
    omega
  · refine iff_of_false (by simp) ?_
    rintro ⟨-, hu, -⟩
    simp_all [String.toList]
    obtain ⟨x, hx, hpx⟩ := hu
    simp [h2 x hx] at hpx
  · refine iff_of_false (by simp) ?_
    rintro ⟨-, -, hl, -⟩
    simp_all [String.toList]
    obtain ⟨x, hx, hpx⟩ := hl
    simp [h3 x hx] at hpx
  · refine iff_of_false (by simp) ?_
    rintro ⟨-, -, -, hd, -⟩
    simp_all [String.toList]
    obtain ⟨x, hx, hpx⟩ := hd
    simp [h4 x hx] at hpx
  · refine iff_of_false (by simp) ?_
    rintro ⟨-, -, -, -, hs⟩
    simp_all [String.toList]
    obtain ⟨x, hx, hpx⟩ := hs
    exact h5 x hx hpx
  · refine iff_of_true rfl ⟨by omega, ?_, ?_, ?_, ?_⟩ <;> simp_all

/-- C6: `create_user` validates email, then username, then password, in
that order; the first failing check determines the returned validation
error and the store is left unchanged, whatever the later fields hold. -/
theorem create_user_validation_order (f : String → StoredHash)
    (newId now : Nat) (req : CreateUserRequest) (s : UserService)
    (e : AppError) :
    (validate_email req.email = .error e →
      create_user f newId now req s = (.error e, s)) ∧
    (validate_email req.email = .ok () →
      validate_username req.username = .error e →
      create_user f newId now req s = (.error e, s)) ∧
    (validate_email req.email = .ok () →
      validate_username req.username = .ok () →
      validate_password req.password = .error e →
      create_user f newId now req s = (.error e, s)) := by
  refine ⟨fun hve => by simp [create_user, hve],
    fun hve hvu => by simp [create_user, hve, hvu],
    fun hve hvu hvp => by simp [create_user, hve, hvu, hvp]⟩

/-- C6 witness: a malformed email is reported as such and the service
state is untouched, even though the username and password are also
checked by nothing afterwards. -/
theorem create_user_validation_order_witness :
    create_user (hash_password 7) 1 100
      ⟨"not-an-email", "x", "abc"⟩ UserService.empty
      = (.error (.ValidationError "Invalid email format"),
         UserService.empty) :=
  (create_user_validation_order (hash_password 7) 1 100
    ⟨"not-an-email", "x", "abc"⟩ UserService.empty
    (.ValidationError "Invalid email format")).1 rfl

/-- C5: the public `UserResponse` projection carries no password hash:
two accounts equal on every field except `password_hash` have identical
projections, and each of `get_user_by_id`, `get_user_by_email` and
`create_user` only ever returns such projections. -/
theorem user_response_excludes_hash :
    (∀ u1 u2 : User, u1.id = u2.id → u1.email = u2.email →
      u1.username = u2.username → u1.is_verified = u2.is_verified →
      u1.stellar_public_key = u2.stellar_public_key →
      u1.created_at = u2.created_at → u1.updated_at = u2.updated_at →
      u1.toResponse = u2.toResponse) ∧
    (∀ (s : UserService) (uid : Nat), (get_user_by_id s uid).1
        = .ok ((lookupKV s.users uid).map User.toResponse)) ∧
    (∀ (s : UserService) (e : String), (get_user_by_email s e).1
        = .ok (((lookupKV s.email_index e).bind
            (fun uid => lookupKV s.users uid)).map User.toResponse)) ∧
    (∀ (f : String → StoredHash) (newId now : Nat)
       (req : CreateUserRequest) (s : UserService)
       (r : UserResponse) (s' : UserService),
      create_user f newId now req s = (.ok r, s') →
      ∃ u : User, r = u.toResponse) := by
  refine ⟨?_, fun s uid => rfl, ?_, ?_⟩
  · intro u1 u2 h1 h2 h3 h4 h5 h6 h7
    simp [User.toResponse, h1, h2, h3, h4, h5, h6]
  · intro s e
    cases h : lookupKV s.email_index e <;>
      simp [get_user_by_email, get_user_by_id, h]
  · intro f newId now req s r s' h
    rcases create_user_cases f newId now req s with
      ⟨e, -, hc⟩ | ⟨-, e, -, hc⟩ | ⟨-, -, e, -, hc⟩ |
      ⟨-, -, -, -, hc⟩ | ⟨-, -, -, -, -, hc⟩ | ⟨-, -, -, -, -, hc⟩ <;>
      rw [hc] at h <;> simp at h
    exact ⟨newUser f newId now req, h.1.symm⟩

/-- C5 witness: two concrete accounts that differ only in their password
hash project to the same public response. -/
theorem user_response_excludes_hash_witness :
    demoUser.toResponse = demoUserAltHash.toResponse :=
  user_response_excludes_hash.1 demoUser demoUserAltHash
    rfl rfl rfl rfl rfl rfl rfl

theorem lookupKV_map_replace {K V : Type} [DecidableEq K]
    (m : List (K × V)) (k : K) (v : V)
    (h : (lookupKV m k).isSome = true) :
    lookupKV (m.map (fun p => if p.1 = k then (k, v) else p)) k = some v := by
  induction m with
  | nil => simp [lookupKV] at h
  | cons p rest ih =>
    obtain ⟨k1, v1⟩ := p
    by_cases hk : k1 = k
    · subst hk
      rw [List.map_cons]
      have hhead : (if ((k1, v1) : K × V).1 = k1 then (k1, v) else (k1, v1))
          = (k1, v) := if_pos rfl
      rw [hhead, lookupKV_cons, if_pos rfl]
    · have hk' : ¬k = k1 := fun hh => hk hh.symm
      have hrest : (lookupKV rest k).isSome = true := by
        rw [lookupKV_cons, if_neg hk'] at h
        exact h
      rw [List.map_cons]
      have hhead : (if ((k1, v1) : K × V).1 = k then (k, v) else (k1, v1))
          = (k1, v1) := if_neg hk
      rw [hhead, lookupKV_cons, if_neg hk']
      exact ih hrest

theorem lookupKV_insertKV_self {K V : Type} [DecidableEq K]
    (m : List (K × V)) (k : K) (v : V) :
    lookupKV (insertKV m k v) k = some v := by
  unfold insertKV
  cases hm : lookupKV m k with
  | none => simp [lookupKV]
  | some w => exact lookupKV_map_replace m k v (by simp [hm])

/-- C1 counterexample: the claim quantifies over every request with a
stored email (resp. username), but `create_user` validates the fields
first. A request reusing the stored email `"a@b.c"` with the weak password
`"abc"` fails with the password validation error, not the duplicate-email
error; a validated request reusing both stored fields fails with the
duplicate-email error, not the duplicate-username error. -/
theorem create_user_duplicate_claim_false :
    ((lookupKV demoService.email_index "a@b.c").isSome = true ∧
      (create_user (hash_password 7) 2 200
        ⟨"a@b.c", "bob_1", "abc"⟩ demoService).1
        ≠ .error duplicateEmailError) ∧
    ((lookupKV demoService.username_index "alice").isSome = true ∧
      (create_user (hash_password 7) 2 200
        ⟨"a@b.c", "alice", "Abcdef1!"⟩ demoService).1
        ≠ .error duplicateUsernameError) := by
  exact ⟨⟨rfl, by decide⟩, ⟨rfl, by decide⟩⟩

/-- C1 (amended): a request that passes field validation and whose email
is already present fails with the duplicate-email error and leaves the
store unchanged; a validated request whose email is new but whose
username is already present fails with the duplicate-username error and
leaves the store unchanged. -/
theorem create_user_duplicate_rejected (f : String → StoredHash)
    (newId now : Nat) (req : CreateUserRequest) (s : UserService)
    (hve : validate_email req.email = .ok ())
    (hvu : validate_username req.username = .ok ())
    (hvp : validate_password req.password = .ok ()) :
    ((lookupKV s.email_index req.email).isSome = true →
      create_user f newId now req s = (.error duplicateEmailError, s)) ∧
    (lookupKV s.email_index req.email = none →
      (lookupKV s.username_index req.username).isSome = true →
      create_user f newId now req s = (.error duplicateUsernameError, s)) := by
  constructor
  · intro he
    simp [create_user, hve, hvu, hvp, he]
  · intro he hu
    simp [create_user, hve, hvu, hvp, he, hu]

/-- C1 witness: a fresh valid request reusing the stored email is
rejected with the duplicate-email error and the state is unchanged. -/
theorem create_user_duplicate_rejected_witness :
    create_user (hash_password 7) 2 200
      ⟨"a@b.c", "bob_1", "Abcdef1!"⟩ demoService
      = (.error duplicateEmailError, demoService) :=
  (create_user_duplicate_rejected (hash_password 7) 2 200
    ⟨"a@b.c", "bob_1", "Abcdef1!"⟩ demoService rfl rfl rfl).1 rfl

/-- C4: on a request whose email or username is already indexed, the
outcome of `create_user` does not depend on the hashing function at all
(so the password is never hashed for a doomed request), and when the
request is validated the returned error is the appropriate duplicate
error. -/
theorem create_user_doomed_never_hashes (newId now : Nat)
    (req : CreateUserRequest) (s : UserService)
    (hdup : (lookupKV s.email_index req.email).isSome = true ∨
      (lookupKV s.username_index req.username).isSome = true) :
    (∀ f g : String → StoredHash,
      create_user f newId now req s = create_user g newId now req s) ∧
    (validate_email req.email = .ok () →
      validate_username req.username = .ok () →
      validate_password req.password = .ok () →
      ∀ f : String → StoredHash,
        (create_user f newId now req s).1 = .error duplicateEmailError ∨
        (create_user f newId now req s).1 = .error duplicateUsernameError) := by
  constructor
  · intro f g
    rcases hve : validate_email req.email with e | u
    · simp [create_user, hve]
    cases u
    rcases hvu : validate_username req.username with e | u
    · simp [create_user, hve, hvu]
    cases u
    rcases hvp : validate_password req.password with e | u
    · simp [create_user, hve, hvu, hvp]
    cases u
    by_cases he : (lookupKV s.email_index req.email).isSome = true
    · simp [create_user, hve, hvu, hvp, he]
    rcases hdup with hd | hu
    · exact absurd hd he
    · simp [create_user, hve, hvu, hvp, he, hu]
  · intro hve hvu hvp f
    by_cases he : (lookupKV s.email_index req.email).isSome = true
    · left
      simp [create_user, hve, hvu, hvp, he]
    rcases hdup with hd | hu
    · exact absurd hd he
    · right
      simp [create_user, hve, hvu, hvp, he, hu]

/-- C4 witness: on a doomed request, two different hashing functions give
the very same outcome. -/
theorem create_user_doomed_never_hashes_witness :
    create_user (hash_password 1) 2 200
      ⟨"a@b.c", "alice", "Abcdef1!"⟩ demoService
      = create_user (hash_password 2) 2 200
        ⟨"a@b.c", "alice", "Abcdef1!"⟩ demoService :=
  (create_user_doomed_never_hashes 2 200
    ⟨"a@b.c", "alice", "Abcdef1!"⟩ demoService (Or.inl rfl)).1
    (hash_password 1) (hash_password 2)

/-- C2: an authentication run whose identifier matches no stored account
and a run whose identifier matches an account but whose password fails
verification both return exactly the same generic
`AuthenticationError`. -/
theorem authenticate_user_uniform_failure (db : SqliteDb)
    (id1 pw1 id2 pw2 : String) (u : User)
    (h1e : db.rows.find? (fun r => r.email == id1) = none)
    (h1u : db.rows.find? (fun r => r.username == id1) = none)
    (h2 : db.rows.find? (fun r => r.email == id2) = some u ∨
      (db.rows.find? (fun r => r.email == id2) = none ∧
        db.rows.find? (fun r => r.username == id2) = some u))
    (hpw : verify_password pw2 u.password_hash = false) :
    authenticate_user db id1 pw1 = .error invalidCredentialsError ∧
    authenticate_user db id2 pw2 = .error invalidCredentialsError ∧
    authenticate_user db id1 pw1 = authenticate_user db id2 pw2 := by
  have hA : authenticate_user db id1 pw1 = .error invalidCredentialsError := by
    simp [authenticate_user, h1e, h1u]
  have hB : authenticate_user db id2 pw2 = .error invalidCredentialsError := by
    rcases h2 with h | ⟨hn, h⟩
    · simp [authenticate_user, h, hpw]
    · simp [authenticate_user, hn, h, hpw]
  exact ⟨hA, hB, hA.trans hB.symm⟩

/-- C2 witness: an unknown identifier and the stored account with a wrong
password produce the identical generic failure. -/
theorem authenticate_user_uniform_failure_witness :
    authenticate_user demoDb "ghost" "Wrong9#x"
      = .error invalidCredentialsError ∧
    authenticate_user demoDb "a@b.c" "Wrong9#x"
      = .error invalidCredentialsError ∧
    authenticate_user demoDb "ghost" "Wrong9#x"
      = authenticate_user demoDb "a@b.c" "Wrong9#x" :=
  authenticate_user_uniform_failure demoDb "ghost" "Wrong9#x"
    "a@b.c" "Wrong9#x" demoUser rfl rfl (Or.inl rfl) rfl

/-- C7: an account stored by a successful `create_user` is unverified,
has no Stellar public key, and has equal creation and update
timestamps. -/
theorem create_user_success_defaults (f : String → StoredHash)
    (newId now : Nat) (req : CreateUserRequest) (s : UserService)
    (r : UserResponse) (s' : UserService)
    (h : create_user f newId now req s = (.ok r, s')) :
    ∃ u : User, lookupKV s'.users newId = some u ∧
      u.is_verified = false ∧ u.stellar_public_key = none ∧
      u.created_at = now ∧ u.updated_at = now ∧
      u.created_at = u.updated_at := by
  rcases create_user_cases f newId now req s with
    ⟨e, -, hc⟩ | ⟨-, e, -, hc⟩ | ⟨-, -, e, -, hc⟩ |
    ⟨-, -, -, -, hc⟩ | ⟨-, -, -, -, -, hc⟩ | ⟨-, -, -, -, -, hc⟩ <;>
    rw [hc] at h <;> simp at h
  refine ⟨newUser f newId now req, ?_, rfl, rfl, rfl, rfl, rfl⟩
  rw [← h.2]
  exact lookupKV_insertKV_self s.users newId (newUser f newId now req)

/-- C7 witness: the account created by a concrete successful run has the
required initial field values. -/
theorem create_user_success_defaults_witness :
    ∃ u : User,
      lookupKV ((create_user (hash_password 7) 1 100
        ⟨"a@b.c", "alice", "Abcdef1!"⟩ UserService.empty).2).users 1
        = some u ∧
      u.is_verified = false ∧ u.stellar_public_key = none ∧
      u.created_at = 100 ∧ u.updated_at = 100 ∧
      u.created_at = u.updated_at :=
  create_user_success_defaults (hash_password 7) 1 100
    ⟨"a@b.c", "alice", "Abcdef1!"⟩ UserService.empty
    ⟨1, "a@b.c", "alice", false, none, 100⟩
    ((create_user (hash_password 7) 1 100
      ⟨"a@b.c", "alice", "Abcdef1!"⟩ UserService.empty).2) rfl

theorem db_create_user_length (db : SqliteDb) (u : User) :
    ((db_create_user db u).2).rows.length
      = db.rows.length
        + (if exceptIsOk (db_create_user db u).1 then 1 else 0) := by
  unfold db_create_user
  split_ifs <;> simp_all [exceptIsOk]

theorem runOps_length (ops : List DbOp) : ∀ db : SqliteDb,
    ((runOps db ops).1).rows.length = db.rows.length + (runOps db ops).2 := by
  induction ops with
  | nil => intro db; simp [runOps]
  | cons op rest ih =>
    intro db
    cases op with
    | create u =>
      have h1 := ih (db_create_user db u).2
      have h2 := db_create_user_length db u
      simp only [runOps]
      omega
    | byEmail e => simpa [runOps] using ih db
    | byUsername un => simpa [runOps] using ih db
    | count => simpa [runOps] using ih db

/-- C8: after any operation sequence from the empty store in which
exactly `n` creations succeeded, the count query returns `n`. -/
theorem get_user_count_counts_creations (ops : List DbOp)
    (db' : SqliteDb) (n : Nat)
    (h : runOps SqliteDb.empty ops = (db', n)) :
    get_user_count db' = .ok n := by
  have hl := runOps_length ops SqliteDb.empty
  rw [h] at hl
  simp [SqliteDb.empty] at hl
  simp [get_user_count, hl]

/-- C8 witness: two successful creations and one rejected duplicate leave
the count at exactly 2. -/
theorem get_user_count_counts_creations_witness :
    get_user_count ((runOps SqliteDb.empty demoOps).1) = .ok 2 :=
  get_user_count_counts_creations demoOps
    ((runOps SqliteDb.empty demoOps).1) 2 rfl

/-- C10: with a fresh generated id, `create_user` preserves index
consistency of the in-memory service (on both its success and failure
paths), and the two read operations leave the state unchanged. -/
theorem user_service_preserves_index_consistency
    (f : String → StoredHash) (newId now : Nat) (req : CreateUserRequest)
    (s : UserService) (hinv : IndexConsistent s)
    (hfresh : lookupKV s.users newId = none) :
    IndexConsistent (create_user f newId now req s).2 ∧
    (∀ uid : Nat, (get_user_by_id s uid).2 = s) ∧
    (∀ e : String, (get_user_by_email s e).2 = s) := by
  refine ⟨?_, fun uid => rfl, fun e => ?_⟩
  · rcases create_user_cases f newId now req s with
      ⟨e, -, hc⟩ | ⟨-, e, -, hc⟩ | ⟨-, -, e, -, hc⟩ |
      ⟨-, -, -, -, hc⟩ | ⟨-, -, -, -, -, hc⟩ | ⟨-, -, -, he, hu, hc⟩ <;>
      rw [hc]
    · exact hinv
    · exact hinv
    · exact hinv
    · exact hinv
    · exact hinv
    obtain ⟨hinvE, hinvU, hlenE, hlenU⟩ :=
      (hinv : (∀ p ∈ s.email_index,
          (lookupKV s.users p.2).map User.email = some p.1) ∧
        (∀ p ∈ s.username_index,
          (lookupKV s.users p.2).map User.username = some p.1) ∧
        s.email_index.length = s.users.length ∧
        s.username_index.length = s.users.length)
    unfold IndexConsistent
    rw [insertKV_of_lookup_none _ he, insertKV_of_lookup_none _ hu,
      insertKV_of_lookup_none _ hfresh]
    refine ⟨?_, ?_, ?_, ?_⟩
    · intro p hp
      rcases List.mem_cons.mp hp with rfl | hp'
      · rw [lookupKV_cons, if_pos rfl]
        simp [newUser]
      · have h0 := hinvE p hp'
        have hne : p.2 ≠ newId := by
          intro hh
          rw [hh, hfresh] at h0
          simp at h0
        rw [lookupKV_cons, if_neg hne]
        exact h0
    · intro p hp
      rcases List.mem_cons.mp hp with rfl | hp'
      · rw [lookupKV_cons, if_pos rfl]
        simp [newUser]
      · have h0 := hinvU p hp'
        have hne : p.2 ≠ newId := by
          intro hh
          rw [hh, hfresh] at h0
          simp at h0
        rw [lookupKV_cons, if_neg hne]
        exact h0
    · simp [hlenE]
    · simp [hlenU]
  · cases h : lookupKV s.email_index e <;>
      simp [get_user_by_email, get_user_by_id, h]

/-- C10 witness: a concrete creation on a consistent one-account state
with a fresh id yields a consistent state again. -/
theorem user_service_preserves_index_consistency_witness :
    IndexConsistent (create_user (hash_password 7) 2 200
      ⟨"b@c.d", "bob_1", "Abcdef1!"⟩ demoService).2 :=
  (user_service_preserves_index_consistency (hash_password 7) 2 200
    ⟨"b@c.d", "bob_1", "Abcdef1!"⟩ demoService
    (by unfold IndexConsistent; decide) rfl).1

end Mzend
